import Mathlib

/-!
Verification of the RRMS initial-DMT scoring engine
(`compute_rrms_initial_recommendations` and its four rule passes in
`streamlit_app.py`).

Modelling conventions:
* Python `float` scores are modelled by `Int`, counted in TENTHS of a
  point: the source literal `2.5` appears below as `25`, `-3.0` as `-30`,
  and the ranking threshold `max_score - 1.0` as `max_score - 10`.  Every
  score delta the engine ever adds is an integer multiple of `0.5` with tiny
  magnitude, so every intermediate float value, comparison, `max`, and
  one-decimal rendering in the source is exact, and the scaled-integer model
  is faithful.
* The mutable dicts `scores`, `notes`, `excluded` are modelled as an explicit
  `EngineState` threaded through the passes.  A dict entry that is absent is
  `Option.none` for `excluded`; `scores`/`notes` are initialised over every
  catalog key exactly as in the source.
* Enum-like inputs (`risk_level`, `efficacy_preference`, ...) are `String`s,
  exactly as in the source, so that out-of-vocabulary values flow through the
  same `if`/`else` chains as they do in Python.
* Python's `sorted(non_excluded, key=lambda k: scores[k], reverse=True)` is a
  stable sort by descending score; it is modelled by `List.mergeSort` with
  `le a b := scores b ≤ scores a`, which is likewise a stable merge sort.
* The display-only catalog fields (`routes`, `moa`, `arr_reduction`,
  `key_risks`) are never read by the scoring engine (only `name` reaches the
  `details` output), so they are omitted from the embedded catalog record.
-/

namespace DMT

/-- Catalog entry for one DMT class, as in `DMT_CLASSES` (engine-relevant
fields; the narrative display-only fields are omitted, see the header). -/
structure TherapyClass where
  name : String
  efficacy_tier : String
  tags : List String
  pregnancy_strategy : String
deriving DecidableEq, Repr

/-- The fixed catalog `DMT_CLASSES`, in declaration order (the Python dict
preserves insertion order, which is the tie-break and display order). -/
def DMT_CLASSES : List (String × TherapyClass) :=
  [ ("anti_cd20",
     { name := "Anti-CD20 monoclonal antibodies (ocrelizumab, ofatumumab, rituximab off-label)",
       efficacy_tier := "high",
       tags := ["high_efficacy", "infusion", "sc", "long_interval", "blunts_vaccines"],
       pregnancy_strategy := "short_course_before_preg" }),
    ("natalizumab",
     { name := "Natalizumab",
       efficacy_tier := "high",
       tags := ["high_efficacy", "infusion", "rebound_risk", "vaccine_friendly"],
       pregnancy_strategy := "short_course_before_preg" }),
    ("alemtuzumab",
     { name := "Alemtuzumab",
       efficacy_tier := "high",
       tags := ["high_efficacy", "infusion", "immune_reconstitution", "intense_monitoring"],
       pregnancy_strategy := "needs_long_washout" }),
    ("cladribine",
     { name := "Cladribine tablets",
       efficacy_tier := "high",
       tags := ["high_efficacy", "oral", "immune_reconstitution", "long_interval", "vaccine_friendly"],
       pregnancy_strategy := "short_course_before_preg" }),
    ("s1p_modulators",
     { name := "S1P receptor modulators (fingolimod, siponimod, ozanimod, ponesimod)",
       efficacy_tier := "moderate_high",
       tags := ["oral", "high_efficacy", "high_freq", "rebound_risk", "blunts_vaccines"],
       pregnancy_strategy := "needs_long_washout" }),
    ("fumarates",
     { name := "Fumarates (dimethyl/diroximel fumarate)",
       efficacy_tier := "moderate",
       tags := ["oral", "moderate_efficacy", "high_freq", "vaccine_friendly"],
       pregnancy_strategy := "caution" }),
    ("teriflunomide",
     { name := "Teriflunomide",
       efficacy_tier := "moderate",
       tags := ["oral", "moderate_efficacy", "high_freq"],
       pregnancy_strategy := "avoid" }),
    ("platform_injectables",
     { name := "Platform injectables (interferon beta preparations and glatiramer acetate)",
       efficacy_tier := "platform",
       tags := ["injectable", "platform", "high_freq", "vaccine_friendly"],
       pregnancy_strategy := "compatible" }) ]

/-- The mutable accumulator maps of the engine (`scores`, `notes`,
`excluded`), threaded explicitly through the four passes. -/
structure EngineState where
  scores : String → Int
  notes : String → List String
  excluded : String → Option String

/-- Initial state: `scores = {k: 0.0}`, `notes = {k: []}`, `excluded = {}`. -/
def initState : EngineState :=
  { scores := fun _ => 0, notes := fun _ => [], excluded := fun _ => none }

/-- Model of `scores[key] += delta` followed by `notes[key].append(note)`. -/
def addScoreNote (s : EngineState) (key : String) (delta : Int) (note : String) : EngineState :=
  { scores := fun k => if k = key then s.scores k + delta else s.scores k,
    notes := fun k => if k = key then s.notes k ++ [note] else s.notes k,
    excluded := s.excluded }

/-- Model of `excluded[key] = reason`. -/
def setExcluded (s : EngineState) (key : String) (reason : String) : EngineState :=
  { scores := s.scores,
    notes := s.notes,
    excluded := fun k => if k = key then some reason else s.excluded k }

/-- Run a per-class step over a list of catalog entries in order, as the
`for key, meta in DMT_CLASSES.items()` loops do. -/
def applyAll (step : String × TherapyClass → EngineState → EngineState) :
    List (String × TherapyClass) → EngineState → EngineState
  | [], s => s
  | e :: es, s => applyAll step es (step e s)

/-- Loop body of `score_activity_and_efficacy` for one catalog entry. -/
def activityStep (risk_level efficacy_preference : String)
    (e : String × TherapyClass) (s : EngineState) : EngineState :=
  if risk_level = "high" then
    if e.2.efficacy_tier = "high" ∨ e.2.efficacy_tier = "moderate_high" then
      addScoreNote s e.1 30 "High-risk disease: high-efficacy or moderate-high-efficacy class is preferred."
    else
      addScoreNote s e.1 10 "High-risk disease: platform/moderate efficacy likely insufficient except when higher-efficacy options are unsafe."
  else
    if efficacy_preference = "max" then
      if e.2.efficacy_tier = "high" ∨ e.2.efficacy_tier = "moderate_high" then
        addScoreNote s e.1 30 "Patient prefers maximal long-term efficacy; this class fits that stance."
      else
        addScoreNote s e.1 15 "Moderate/platform efficacy despite maximal-efficacy preference."
    else if efficacy_preference = "balanced" then
      if e.2.efficacy_tier = "high" ∨ e.2.efficacy_tier = "moderate_high" then
        addScoreNote s e.1 25 "Balanced view: high efficacy acceptable with monitoring."
      else
        addScoreNote s e.1 20 "Balanced view: moderate/platform efficacy acceptable."
    else
      if e.2.efficacy_tier = "high" ∨ e.2.efficacy_tier = "moderate_high" then
        addScoreNote s e.1 10 "Safety-first stance: high-efficacy agent used only if other factors strongly favour it."
      else
        addScoreNote s e.1 30 "Safety-first stance: platform/moderate efficacy aligns with risk aversion."

/-- Pass 1, `score_activity_and_efficacy`. -/
def score_activity_and_efficacy (risk_level efficacy_preference : String)
    (s : EngineState) : EngineState :=
  applyAll (activityStep risk_level efficacy_preference) DMT_CLASSES s

/-- Loop body of `score_pregnancy` for one catalog entry. -/
def pregnancyStep (pregnancy_horizon : String)
    (e : String × TherapyClass) (s : EngineState) : EngineState :=
  if pregnancy_horizon = "within_6_months" then
    if e.2.pregnancy_strategy = "compatible" then
      addScoreNote s e.1 40 "Pregnancy planned in ≤6 months: this class is relatively compatible with conception/pregnancy."
    else
      setExcluded s e.1 "Pregnancy planned in ≤6 months: not advisable because safe washout is not feasible or data are insufficient."
  else if pregnancy_horizon = "six_to_24_months" then
    if e.2.pregnancy_strategy = "compatible" then
      addScoreNote s e.1 30 "Pregnancy in 6–24 months: relatively safe through conception."
    else if e.2.pregnancy_strategy = "short_course_before_preg" then
      addScoreNote s e.1 20 "Pregnancy in 6–24 months: can be used as short-course or with timed last dose before conception."
    else if e.2.pregnancy_strategy = "caution" then
      addScoreNote s e.1 10 "Pregnancy in 6–24 months: limited but growing data; typically not first-line in this setting."
    else
      addScoreNote s e.1 (-30) "Pregnancy in 6–24 months: long washout or teratogenicity makes this less attractive."
  else s

/-- Pass 2, `score_pregnancy`: no-op unless childbearing potential and a live
pregnancy horizon. -/
def score_pregnancy (pregnancy_horizon : String) (of_childbearing_potential : Bool)
    (s : EngineState) : EngineState :=
  if of_childbearing_potential = false ∨ pregnancy_horizon = "none" then s
  else applyAll (pregnancyStep pregnancy_horizon) DMT_CLASSES s

/-- Loop body of `score_comorbidities` for one catalog entry.  The `cardiac`
and `hepatic` rules end with `continue` in the source, so a class they exclude
skips every later comorbidity rule; the `autoimmune` rule does NOT `continue`,
so the rules after it still run for the excluded class. -/
def comorbidityStep (comorbidities : List String)
    (e : String × TherapyClass) (s : EngineState) : EngineState :=
  if "cardiac" ∈ comorbidities ∧ e.1 = "s1p_modulators" then
    setExcluded s e.1 "Cardiac disease or conduction abnormalities: S1P modulators are relatively contraindicated."
  else if "hepatic" ∈ comorbidities ∧ e.1 = "teriflunomide" then
    setExcluded s e.1 "Significant hepatic disease: teriflunomide carries hepatotoxicity risk."
  else
    let s1 := if "renal" ∈ comorbidities ∧ e.1 = "fumarates" then
      addScoreNote s e.1 (-20) "Renal impairment: fumarates have limited data and may be less attractive." else s
    let s2 := if "autoimmune" ∈ comorbidities ∧ e.1 = "alemtuzumab" then
      setExcluded s1 e.1 "Pre-existing autoimmune diathesis: avoid alemtuzumab because of high autoimmune complication rates." else s1
    let s3 := if "malignancy" ∈ comorbidities ∧ e.1 ∈ ["anti_cd20", "alemtuzumab", "cladribine", "teriflunomide"] then
      addScoreNote s2 e.1 (-20) "History of malignancy: consider carefully; balance immunosuppression against cancer risk." else s2
    let s4 := if "infection_risk" ∈ comorbidities ∧ e.1 ∈ ["anti_cd20", "alemtuzumab", "cladribine", "s1p_modulators"] then
      addScoreNote s3 e.1 (-30) "High infection risk: deep or prolonged immunosuppression is less attractive." else s3
    let s5 := if "gi_dominant" ∈ comorbidities ∧ e.1 ∈ ["fumarates", "teriflunomide"] then
      addScoreNote s4 e.1 (-30) "Prominent baseline GI symptoms: this class is often GI-limited and may be poorly tolerated." else s4
    if "psychiatric" ∈ comorbidities ∧ e.1 = "platform_injectables" then
      addScoreNote s5 e.1 (-20) "Severe depression or suicidality: interferon-associated mood effects make this less attractive." else s5

/-- Pass 3, `score_comorbidities`. -/
def score_comorbidities (comorbidities : List String) (s : EngineState) : EngineState :=
  applyAll (comorbidityStep comorbidities) DMT_CLASSES s

/-- Adherence sub-block of the modifier pass (runs before the route rule). -/
def adherenceAdjust (adherence_risk : Bool)
    (e : String × TherapyClass) (s : EngineState) : EngineState :=
  if adherence_risk then
    let s1 := if "long_interval" ∈ e.2.tags ∨ "immune_reconstitution" ∈ e.2.tags then
      addScoreNote s e.1 25 "High adherence risk: long-interval or immune-reconstitution regimen is a good fit." else s
    if "high_freq" ∈ e.2.tags then
      addScoreNote s1 e.1 (-20) "High adherence risk: frequent dosing may be problematic." else s1
  else s

/-- Non-excluding part of the route-preference sub-block.  In the `oral_only`
case this function is only reached when the class is tagged `oral` (the
non-oral case excludes and `continue`s in `modifierStep`). -/
def routeAdjust (route_preference : String)
    (e : String × TherapyClass) (s : EngineState) : EngineState :=
  if route_preference = "oral_only" then
    addScoreNote s e.1 20 "Oral-only preference: this class is oral."
  else if route_preference = "no_infusion" then
    if "infusion" ∈ e.2.tags then
      addScoreNote s e.1 (-30) "Patient wishes to avoid infusions; this class is infusion-based." else s
  else if route_preference = "prefer_infrequent" then
    let s1 := if "long_interval" ∈ e.2.tags ∨ "immune_reconstitution" ∈ e.2.tags then
      addScoreNote s e.1 20 "Prefers infrequent dosing: long-interval or immune-reconstitution class fits well." else s
    if "high_freq" ∈ e.2.tags then
      addScoreNote s1 e.1 (-10) "Prefers infrequent dosing: daily or frequent dosing less attractive." else s1
  else s

/-- Logistic-limits sub-block of the modifier pass. -/
def logisticsAdjust (logistic_limits : List String)
    (e : String × TherapyClass) (s : EngineState) : EngineState :=
  let s1 := if "limited_infusion_access" ∈ logistic_limits ∧ "infusion" ∈ e.2.tags then
    addScoreNote s e.1 (-30) "Limited infusion access: hospital-based infusions are logistically difficult." else s
  let s2 := if "time_off_work" ∈ logistic_limits ∧ "infusion" ∈ e.2.tags then
    addScoreNote s1 e.1 (-20) "Difficulty taking time off work: prolonged infusions are less convenient." else s1
  if "unstable_insurance" ∈ logistic_limits ∧ e.1 ∈ ["anti_cd20", "natalizumab", "alemtuzumab"] then
    addScoreNote s2 e.1 (-15) "Unstable insurance: very high-cost biologics may be at risk if coverage changes." else s2

/-- Vaccine-priority sub-block of the modifier pass. -/
def vaccineAdjust (vaccine_priority : Bool)
    (e : String × TherapyClass) (s : EngineState) : EngineState :=
  if vaccine_priority then
    let s1 := if "blunts_vaccines" ∈ e.2.tags then
      addScoreNote s e.1 (-30) "High vaccine-priority: this class markedly blunts humoral vaccine responses." else s
    if "vaccine_friendly" ∈ e.2.tags then
      addScoreNote s1 e.1 20 "High vaccine-priority: this class generally preserves vaccine responses." else s1
  else s

/-- Forced-discontinuation sub-block of the modifier pass. -/
def exitAdjust (forced_stop_risk : Bool)
    (e : String × TherapyClass) (s : EngineState) : EngineState :=
  if forced_stop_risk then
    let s1 := if "rebound_risk" ∈ e.2.tags then
      addScoreNote s e.1 (-40) "High likelihood of forced discontinuation: rebound risk makes this class unattractive." else s
    if "long_interval" ∈ e.2.tags ∨ "immune_reconstitution" ∈ e.2.tags then
      addScoreNote s1 e.1 15 "High likelihood of forced discontinuation: this class usually has a smoother exit strategy." else s1
  else s

/-- Loop body of `score_modifiers` for one catalog entry.  The source's
`oral_only`/non-oral branch sets `excluded[key]` and `continue`s, skipping
every remaining modifier rule for that class; that early exit is rendered as
the first `if` below. -/
def modifierStep (adherence_risk : Bool) (route_preference : String)
    (logistic_limits : List String) (vaccine_priority forced_stop_risk : Bool)
    (e : String × TherapyClass) (s : EngineState) : EngineState :=
  let s1 := adherenceAdjust adherence_risk e s
  if route_preference = "oral_only" ∧ "oral" ∉ e.2.tags then
    setExcluded s1 e.1 "Patient prefers oral-only therapy; this class is not oral."
  else
    exitAdjust forced_stop_risk e
      (vaccineAdjust vaccine_priority e
        (logisticsAdjust logistic_limits e
          (routeAdjust route_preference e s1)))

/-- Pass 4, `score_modifiers`. -/
def score_modifiers (adherence_risk : Bool) (route_preference : String)
    (logistic_limits : List String) (vaccine_priority forced_stop_risk : Bool)
    (s : EngineState) : EngineState :=
  applyAll
    (modifierStep adherence_risk route_preference logistic_limits vaccine_priority forced_stop_risk)
    DMT_CLASSES s


/-! ## Frame and locality lemmas

Each loop body touches only the accumulator entries of its own catalog key,
and its effect at that key depends only on the accumulator entries at that
key.  These two facts reduce reasoning about a whole pass to reasoning about
a single loop body. -/

/-- Two states agree on every accumulator entry of key `k`. -/
def agreeAt (k : String) (s t : EngineState) : Prop :=
  s.scores k = t.scores k ∧ s.notes k = t.notes k ∧ s.excluded k = t.excluded k

theorem agreeAt_refl (k : String) (s : EngineState) : agreeAt k s s :=
  ⟨rfl, rfl, rfl⟩

theorem agreeAt_trans {k : String} {s t u : EngineState}
    (h1 : agreeAt k s t) (h2 : agreeAt k t u) : agreeAt k s u :=
  ⟨h1.1.trans h2.1, h1.2.1.trans h2.2.1, h1.2.2.trans h2.2.2⟩

@[simp] theorem scores_addScoreNote (s : EngineState) (key : String) (d : Int) (n k : String) :
    (addScoreNote s key d n).scores k = if k = key then s.scores k + d else s.scores k := rfl

@[simp] theorem notes_addScoreNote (s : EngineState) (key : String) (d : Int) (n k : String) :
    (addScoreNote s key d n).notes k = if k = key then s.notes k ++ [n] else s.notes k := rfl

@[simp] theorem excluded_addScoreNote (s : EngineState) (key : String) (d : Int) (n k : String) :
    (addScoreNote s key d n).excluded k = s.excluded k := rfl

@[simp] theorem scores_setExcluded (s : EngineState) (key r k : String) :
    (setExcluded s key r).scores k = s.scores k := rfl

@[simp] theorem notes_setExcluded (s : EngineState) (key r k : String) :
    (setExcluded s key r).notes k = s.notes k := rfl

@[simp] theorem excluded_setExcluded (s : EngineState) (key r k : String) :
    (setExcluded s key r).excluded k = if k = key then some r else s.excluded k := rfl

theorem activityStep_frame (rl ep : String) (e : String × TherapyClass) (s : EngineState)
    (k : String) (h : e.1 ≠ k) : agreeAt k (activityStep rl ep e s) s := by
  unfold activityStep
  split_ifs <;> simp [agreeAt, Ne.symm h]

theorem activityStep_dep (rl ep : String) (e : String × TherapyClass) (s t : EngineState)
    (h : agreeAt e.1 s t) : agreeAt e.1 (activityStep rl ep e s) (activityStep rl ep e t) := by
  obtain ⟨h1, h2, h3⟩ := h
  unfold activityStep
  split_ifs <;> simp [agreeAt, h1, h2, h3]

theorem pregnancyStep_frame (ph : String) (e : String × TherapyClass) (s : EngineState)
    (k : String) (h : e.1 ≠ k) : agreeAt k (pregnancyStep ph e s) s := by
  unfold pregnancyStep
  split_ifs <;> simp [agreeAt, Ne.symm h]

theorem pregnancyStep_dep (ph : String) (e : String × TherapyClass) (s t : EngineState)
    (h : agreeAt e.1 s t) : agreeAt e.1 (pregnancyStep ph e s) (pregnancyStep ph e t) := by
  obtain ⟨h1, h2, h3⟩ := h
  unfold pregnancyStep
  split_ifs <;> simp [agreeAt, h1, h2, h3]

theorem comorbidityStep_frame (c : List String) (e : String × TherapyClass) (s : EngineState)
    (k : String) (h : e.1 ≠ k) : agreeAt k (comorbidityStep c e s) s := by
  unfold comorbidityStep
  split_ifs <;> simp [agreeAt, Ne.symm h]

theorem comorbidityStep_dep (c : List String) (e : String × TherapyClass) (s t : EngineState)
    (h : agreeAt e.1 s t) : agreeAt e.1 (comorbidityStep c e s) (comorbidityStep c e t) := by
  obtain ⟨h1, h2, h3⟩ := h
  unfold comorbidityStep
  split_ifs <;> simp [agreeAt, h1, h2, h3]

theorem adherenceAdjust_frame (a : Bool) (e : String × TherapyClass) (s : EngineState)
    (k : String) (h : e.1 ≠ k) : agreeAt k (adherenceAdjust a e s) s := by
  unfold adherenceAdjust
  split_ifs <;> simp [agreeAt, Ne.symm h]

theorem adherenceAdjust_dep (a : Bool) (e : String × TherapyClass) (s t : EngineState)
    (h : agreeAt e.1 s t) : agreeAt e.1 (adherenceAdjust a e s) (adherenceAdjust a e t) := by
  obtain ⟨h1, h2, h3⟩ := h
  unfold adherenceAdjust
  split_ifs <;> simp [agreeAt, h1, h2, h3]

theorem routeAdjust_frame (rp : String) (e : String × TherapyClass) (s : EngineState)
    (k : String) (h : e.1 ≠ k) : agreeAt k (routeAdjust rp e s) s := by
  unfold routeAdjust
  split_ifs <;> simp [agreeAt, Ne.symm h]

theorem routeAdjust_dep (rp : String) (e : String × TherapyClass) (s t : EngineState)
    (h : agreeAt e.1 s t) : agreeAt e.1 (routeAdjust rp e s) (routeAdjust rp e t) := by
  obtain ⟨h1, h2, h3⟩ := h
  unfold routeAdjust
  split_ifs <;> simp [agreeAt, h1, h2, h3]

theorem logisticsAdjust_frame (ll : List String) (e : String × TherapyClass) (s : EngineState)
    (k : String) (h : e.1 ≠ k) : agreeAt k (logisticsAdjust ll e s) s := by
  unfold logisticsAdjust
  split_ifs <;> simp [agreeAt, Ne.symm h]

theorem logisticsAdjust_dep (ll : List String) (e : String × TherapyClass) (s t : EngineState)
    (h : agreeAt e.1 s t) : agreeAt e.1 (logisticsAdjust ll e s) (logisticsAdjust ll e t) := by
  obtain ⟨h1, h2, h3⟩ := h
  unfold logisticsAdjust
  split_ifs <;> simp [agreeAt, h1, h2, h3]

theorem vaccineAdjust_frame (vp : Bool) (e : String × TherapyClass) (s : EngineState)
    (k : String) (h : e.1 ≠ k) : agreeAt k (vaccineAdjust vp e s) s := by
  unfold vaccineAdjust
  split_ifs <;> simp [agreeAt, Ne.symm h]

theorem vaccineAdjust_dep (vp : Bool) (e : String × TherapyClass) (s t : EngineState)
    (h : agreeAt e.1 s t) : agreeAt e.1 (vaccineAdjust vp e s) (vaccineAdjust vp e t) := by
  obtain ⟨h1, h2, h3⟩ := h
  unfold vaccineAdjust
  split_ifs <;> simp [agreeAt, h1, h2, h3]

theorem exitAdjust_frame (fs : Bool) (e : String × TherapyClass) (s : EngineState)
    (k : String) (h : e.1 ≠ k) : agreeAt k (exitAdjust fs e s) s := by
  unfold exitAdjust
  split_ifs <;> simp [agreeAt, Ne.symm h]

theorem exitAdjust_dep (fs : Bool) (e : String × TherapyClass) (s t : EngineState)
    (h : agreeAt e.1 s t) : agreeAt e.1 (exitAdjust fs e s) (exitAdjust fs e t) := by
  obtain ⟨h1, h2, h3⟩ := h
  unfold exitAdjust
  split_ifs <;> simp [agreeAt, h1, h2, h3]

theorem setExcluded_agree (s : EngineState) (key r : String) (k : String) (h : key ≠ k) :
    agreeAt k (setExcluded s key r) s := by
  simp [agreeAt, Ne.symm h]

theorem modifierStep_frame (a : Bool) (rp : String) (ll : List String) (vp fs : Bool)
    (e : String × TherapyClass) (s : EngineState) (k : String) (h : e.1 ≠ k) :
    agreeAt k (modifierStep a rp ll vp fs e s) s := by
  unfold modifierStep
  split_ifs with h1
  · exact agreeAt_trans (setExcluded_agree _ _ _ _ h) (adherenceAdjust_frame a e s k h)
  · exact agreeAt_trans (exitAdjust_frame fs e _ k h)
      (agreeAt_trans (vaccineAdjust_frame vp e _ k h)
        (agreeAt_trans (logisticsAdjust_frame ll e _ k h)
          (agreeAt_trans (routeAdjust_frame rp e _ k h) (adherenceAdjust_frame a e s k h))))

theorem modifierStep_dep (a : Bool) (rp : String) (ll : List String) (vp fs : Bool)
    (e : String × TherapyClass) (s t : EngineState) (h : agreeAt e.1 s t) :
    agreeAt e.1 (modifierStep a rp ll vp fs e s) (modifierStep a rp ll vp fs e t) := by
  have ha := adherenceAdjust_dep a e s t h
  unfold modifierStep
  split_ifs with h1
  · obtain ⟨g1, g2, g3⟩ := ha
    simp [agreeAt, g1, g2, g3]
  · exact exitAdjust_dep fs e _ _ (vaccineAdjust_dep vp e _ _ (logisticsAdjust_dep ll e _ _
      (routeAdjust_dep rp e _ _ ha)))


theorem applyAll_frame (step : String × TherapyClass → EngineState → EngineState)
    (hf : ∀ e s k, e.1 ≠ k → agreeAt k (step e s) s) :
    ∀ (es : List (String × TherapyClass)) (s : EngineState) (k : String),
      k ∉ es.map Prod.fst → agreeAt k (applyAll step es s) s := by
  intro es
  induction es with
  | nil => intro s k _; exact agreeAt_refl k s
  | cons e es ih =>
    intro s k h
    simp only [List.map_cons, List.mem_cons, not_or] at h
    exact agreeAt_trans (ih (step e s) k h.2) (hf e s k (fun he => h.1 (he.symm)))

theorem applyAll_read (step : String × TherapyClass → EngineState → EngineState)
    (hf : ∀ e s k, e.1 ≠ k → agreeAt k (step e s) s)
    (hd : ∀ e s t, agreeAt e.1 s t → agreeAt e.1 (step e s) (step e t)) :
    ∀ (es : List (String × TherapyClass)) (s : EngineState) (k : String) (meta : TherapyClass),
      (k, meta) ∈ es → (es.map Prod.fst).Nodup →
      agreeAt k (applyAll step es s) (step (k, meta) s) := by
  intro es
  induction es with
  | nil => intro s k meta h _; cases h
  | cons e es ih =>
    intro s k meta hmem hnd
    simp only [List.map_cons, List.nodup_cons] at hnd
    rcases List.mem_cons.mp hmem with he | he
    · subst he
      exact applyAll_frame step hf es (step (k, meta) s) k hnd.1
    · have hk : k ∈ es.map Prod.fst := List.mem_map.mpr ⟨(k, meta), he, rfl⟩
      have hne : e.1 ≠ k := fun h => hnd.1 (h ▸ hk)
      have h1 := ih (step e s) k meta he hnd.2
      have h2 := hd (k, meta) (step e s) s (hf e s k hne)
      exact agreeAt_trans h1 h2

theorem applyAll_congr (step1 step2 : String × TherapyClass → EngineState → EngineState)
    (h : ∀ e s, step1 e s = step2 e s) :
    ∀ (es : List (String × TherapyClass)) (s : EngineState),
      applyAll step1 es s = applyAll step2 es s := by
  intro es
  induction es with
  | nil => intro s; rfl
  | cons e es ih => intro s; simp only [applyAll, h, ih]

theorem dmt_keys_nodup : (DMT_CLASSES.map Prod.fst).Nodup := by decide

/-- Read one class's accumulators after pass 2 (with the loop actually
running) in terms of the loop body on that class alone. -/
theorem score_pregnancy_read (ph : String) (s : EngineState) (k : String)
    (meta : TherapyClass) (hmem : (k, meta) ∈ DMT_CLASSES) (hph : ph ≠ "none") :
    agreeAt k (score_pregnancy ph true s) (pregnancyStep ph (k, meta) s) := by
  unfold score_pregnancy
  rw [if_neg (by simp [hph])]
  exact applyAll_read _ (pregnancyStep_frame ph) (pregnancyStep_dep ph)
    DMT_CLASSES s k meta hmem dmt_keys_nodup

/-- Read one class's accumulators after pass 4 in terms of the loop body on
that class alone. -/
theorem score_modifiers_read (a : Bool) (rp : String) (ll : List String) (vp fs : Bool)
    (s : EngineState) (k : String) (meta : TherapyClass) (hmem : (k, meta) ∈ DMT_CLASSES) :
    agreeAt k (score_modifiers a rp ll vp fs s) (modifierStep a rp ll vp fs (k, meta) s) :=
  applyAll_read _ (modifierStep_frame a rp ll vp fs) (modifierStep_dep a rp ll vp fs)
    DMT_CLASSES s k meta hmem dmt_keys_nodup

/-! ## Exclusion persistence -/

theorem comorbidityStep_keepsExcluded (c : List String) (e : String × TherapyClass)
    (s : EngineState) (k : String) (h : (s.excluded k).isSome = true) :
    ((comorbidityStep c e s).excluded k).isSome = true := by
  unfold comorbidityStep
  split_ifs <;> simp [h] <;> split_ifs <;> simp [h]

theorem modifierStep_keepsExcluded (a : Bool) (rp : String) (ll : List String) (vp fs : Bool)
    (e : String × TherapyClass) (s : EngineState) (k : String)
    (h : (s.excluded k).isSome = true) :
    ((modifierStep a rp ll vp fs e s).excluded k).isSome = true := by
  have ha : ((adherenceAdjust a e s).excluded k) = s.excluded k := by
    unfold adherenceAdjust; split_ifs <;> simp
  have hr : ∀ t : EngineState, ((routeAdjust rp e t).excluded k) = t.excluded k := by
    intro t; unfold routeAdjust; split_ifs <;> simp
  have hl : ∀ t : EngineState, ((logisticsAdjust ll e t).excluded k) = t.excluded k := by
    intro t; unfold logisticsAdjust; split_ifs <;> simp
  have hv : ∀ t : EngineState, ((vaccineAdjust vp e t).excluded k) = t.excluded k := by
    intro t; unfold vaccineAdjust; split_ifs <;> simp
  have he : ∀ t : EngineState, ((exitAdjust fs e t).excluded k) = t.excluded k := by
    intro t; unfold exitAdjust; split_ifs <;> simp
  unfold modifierStep
  split_ifs with h1
  · simp only [excluded_setExcluded, ha]
    split_ifs <;> simp [h]
  · simp [he, hv, hl, hr, ha, h]

theorem applyAll_keepsExcluded (step : String × TherapyClass → EngineState → EngineState)
    (hk : ∀ e s k, (s.excluded k).isSome = true → ((step e s).excluded k).isSome = true) :
    ∀ (es : List (String × TherapyClass)) (s : EngineState) (k : String),
      (s.excluded k).isSome = true → ((applyAll step es s).excluded k).isSome = true := by
  intro es
  induction es with
  | nil => intro s k h; exact h
  | cons e es ih => intro s k h; exact ih (step e s) k (hk e s k h)

/-- Patient profile: the ten arguments of
`compute_rrms_initial_recommendations`, with enum-like fields kept as strings
exactly as in the source. -/
structure PatientProfile where
  risk_level : String
  efficacy_preference : String
  of_childbearing_potential : Bool
  pregnancy_horizon : String
  comorbidities : List String
  adherence_risk : Bool
  route_preference : String
  logistic_limits : List String
  vaccine_priority : Bool
  forced_stop_risk : Bool
deriving DecidableEq, Repr

/-- State after pass 1. -/
def stateAfterActivity (p : PatientProfile) : EngineState :=
  score_activity_and_efficacy p.risk_level p.efficacy_preference initState

/-- State after pass 2. -/
def stateAfterPregnancy (p : PatientProfile) : EngineState :=
  score_pregnancy p.pregnancy_horizon p.of_childbearing_potential (stateAfterActivity p)

/-- State after pass 3. -/
def stateAfterComorbidities (p : PatientProfile) : EngineState :=
  score_comorbidities p.comorbidities (stateAfterPregnancy p)

/-- State after all four passes. -/
def finalState (p : PatientProfile) : EngineState :=
  score_modifiers p.adherence_risk p.route_preference p.logistic_limits
    p.vaccine_priority p.forced_stop_risk (stateAfterComorbidities p)

/-- One `details` entry: `{ 'name', 'score', 'notes', 'excluded_reason' }`. -/
structure Detail where
  name : String
  score : String
  notes : String
  excluded_reason : String
deriving DecidableEq, Repr

/-- Model of `f"{x:.1f}"` on a score held in tenths.  Every reachable engine
score is an integer multiple of `0.5` (a whole number of tenths), for which
Python's one-decimal float formatting is exact and agrees with this
definition. -/
def formatOneDecimal (n : Int) : String :=
  let sign := if n < 0 then "-" else ""
  sign ++ toString (n.natAbs / 10) ++ "." ++ toString (n.natAbs % 10)

/-- Join of `" ".join(notes[key]) if notes[key] else ""`. -/
def joinNotes (l : List String) : String :=
  if l = [] then "" else String.intercalate " " l

/-- The `details` entry built for one catalog entry from the final state. -/
def mkDetail (final : EngineState) (e : String × TherapyClass) : Detail :=
  { name := e.2.name,
    score := formatOneDecimal (final.scores e.1),
    notes := joinNotes (final.notes e.1),
    excluded_reason := (final.excluded e.1).getD "" }

/-- The `details` mapping, one entry per catalog class in catalog order. -/
def detailsFrom (final : EngineState) : List (String × Detail) :=
  DMT_CLASSES.map (fun e => (e.1, mkDetail final e))

/-- Model of `[k for k in DMT_CLASSES.keys() if k not in excluded]`. -/
def nonExcludedFrom (final : EngineState) : List String :=
  (DMT_CLASSES.map Prod.fst).filter (fun k => (final.excluded k).isNone)

/-- Model of Python's `max(...)` over a nonempty iterable (first element as
the running value).  The `[]` case is unreachable in the engine, which guards
on `non_excluded` being nonempty before taking the max. -/
def maxOver (f : String → Int) : List String → Int
  | [] => 0
  | k :: ks => ks.foldl (fun a k' => max a (f k')) (f k)

/-- The comparison used for ranking: descending score.  `sorted(...,
key=lambda k: scores[k], reverse=True)` is a stable sort under exactly this
boolean relation, as is `List.mergeSort`. -/
def scoreDescLe (final : EngineState) (a b : String) : Bool :=
  decide (final.scores b ≤ final.scores a)

/-- The ranking loop over the sorted non-excluded classes: append to
`strongly_recommended` when `score >= max_score - 1.0`, else to
`reasonable_alternatives` when `score > 0`, else to neither. -/
def rankingLoop (sc : String → Int) (max_score : Int) :
    List String → List String × List String
  | [] => ([], [])
  | k :: ks =>
    if sc k ≥ max_score - 10 then
      (k :: (rankingLoop sc max_score ks).1, (rankingLoop sc max_score ks).2)
    else if sc k > 0 then
      ((rankingLoop sc max_score ks).1, k :: (rankingLoop sc max_score ks).2)
    else rankingLoop sc max_score ks



/-! ## Component-invariance lemmas for the modifier sub-blocks -/

theorem adherenceAdjust_excluded (a : Bool) (e : String × TherapyClass) (s : EngineState)
    (k : String) : (adherenceAdjust a e s).excluded k = s.excluded k := by
  unfold adherenceAdjust; split_ifs <;> simp

theorem routeAdjust_excluded (rp : String) (e : String × TherapyClass) (s : EngineState)
    (k : String) : (routeAdjust rp e s).excluded k = s.excluded k := by
  unfold routeAdjust; split_ifs <;> simp

theorem logisticsAdjust_excluded (ll : List String) (e : String × TherapyClass) (s : EngineState)
    (k : String) : (logisticsAdjust ll e s).excluded k = s.excluded k := by
  unfold logisticsAdjust; split_ifs <;> simp

theorem vaccineAdjust_excluded (vp : Bool) (e : String × TherapyClass) (s : EngineState)
    (k : String) : (vaccineAdjust vp e s).excluded k = s.excluded k := by
  unfold vaccineAdjust; split_ifs <;> simp

theorem exitAdjust_excluded (fs : Bool) (e : String × TherapyClass) (s : EngineState)
    (k : String) : (exitAdjust fs e s).excluded k = s.excluded k := by
  unfold exitAdjust; split_ifs <;> simp

/-- With no route preference the route sub-block does nothing. -/
theorem routeAdjust_no_strong_pref (e : String × TherapyClass) (s : EngineState) :
    routeAdjust "no_strong_pref" e s = s := by
  unfold routeAdjust
  rw [if_neg (by decide), if_neg (by decide), if_neg (by decide)]

/-- Each later modifier sub-block adds a state-independent delta at its own
key, so it preserves score differences there. -/
theorem logisticsAdjust_scores_sub (ll : List String) (e : String × TherapyClass)
    (s t : EngineState) :
    (logisticsAdjust ll e s).scores e.1 - (logisticsAdjust ll e t).scores e.1 =
      s.scores e.1 - t.scores e.1 := by
  unfold logisticsAdjust; split_ifs <;> simp

theorem vaccineAdjust_scores_sub (vp : Bool) (e : String × TherapyClass)
    (s t : EngineState) :
    (vaccineAdjust vp e s).scores e.1 - (vaccineAdjust vp e t).scores e.1 =
      s.scores e.1 - t.scores e.1 := by
  unfold vaccineAdjust; split_ifs <;> simp

theorem exitAdjust_scores_sub (fs : Bool) (e : String × TherapyClass)
    (s t : EngineState) :
    (exitAdjust fs e s).scores e.1 - (exitAdjust fs e t).scores e.1 =
      s.scores e.1 - t.scores e.1 := by
  unfold exitAdjust; split_ifs <;> simp

/-! ## Ranking lemmas -/

theorem scoreDescLe_trans (final : EngineState) (a b c : String)
    (hab : scoreDescLe final a b) (hbc : scoreDescLe final b c) : scoreDescLe final a c := by
  simp only [scoreDescLe, decide_eq_true_eq] at *
  exact le_trans hbc hab

theorem scoreDescLe_total (final : EngineState) (a b : String) :
    scoreDescLe final a b || scoreDescLe final b a := by
  simp only [scoreDescLe, Bool.or_eq_true, decide_eq_true_eq]
  exact le_total (final.scores b) (final.scores a)

theorem rankingLoop_eq (sc : String → Int) (m : Int) :
    ∀ l : List String, rankingLoop sc m l =
      (l.filter (fun k => decide (sc k ≥ m - 10)),
       l.filter (fun k => decide (¬(sc k ≥ m - 10) ∧ sc k > 0))) := by
  intro l
  induction l with
  | nil => rfl
  | cons k ks ih =>
    unfold rankingLoop
    rw [ih]
    rcases Decidable.em (sc k ≥ m - 10) with h1 | h1
    · rw [if_pos h1, List.filter_cons, List.filter_cons,
        if_pos (by simpa using h1), if_neg (by simp [h1])]
    · rcases Decidable.em (sc k > 0) with h2 | h2
      · rw [if_neg h1, if_pos h2, List.filter_cons, List.filter_cons,
          if_neg (by simpa using h1), if_pos (by simp [h1, h2])]
      · rw [if_neg h1, if_neg h2, List.filter_cons, List.filter_cons,
          if_neg (by simpa using h1), if_neg (by simp [h1, h2])]

theorem foldl_max_init_le (f : String → Int) :
    ∀ (l : List String) (a : Int), a ≤ l.foldl (fun b k' => max b (f k')) a := by
  intro l
  induction l with
  | nil => intro a; exact le_refl a
  | cons x xs ih =>
    intro a
    exact le_trans (le_max_left a (f x)) (ih (max a (f x)))

theorem foldl_max_le (f : String → Int) :
    ∀ (l : List String) (a : Int) (k : String), k ∈ l →
      f k ≤ l.foldl (fun b k' => max b (f k')) a := by
  intro l
  induction l with
  | nil => intro a k h; cases h
  | cons x xs ih =>
    intro a k h
    rcases List.mem_cons.mp h with h | h
    · subst h
      exact le_trans (le_max_right a (f k)) (foldl_max_init_le f xs (max a (f k)))
    · exact ih (max a (f x)) k h

theorem foldl_max_attained (f : String → Int) :
    ∀ (l : List String) (a : Int),
      l.foldl (fun b k' => max b (f k')) a = a ∨
      ∃ k ∈ l, l.foldl (fun b k' => max b (f k')) a = f k := by
  intro l
  induction l with
  | nil => intro a; exact Or.inl rfl
  | cons x xs ih =>
    intro a
    rcases ih (max a (f x)) with h | ⟨k, hk, hfk⟩
    · rcases max_choice a (f x) with hm | hm
      · exact Or.inl (h.trans hm)
      · exact Or.inr ⟨x, List.mem_cons_self x xs, h.trans hm⟩
    · exact Or.inr ⟨k, List.mem_cons_of_mem x hk, hfk⟩

theorem le_maxOver (f : String → Int) (l : List String) (k : String) (h : k ∈ l) :
    f k ≤ maxOver f l := by
  cases l with
  | nil => cases h
  | cons x xs =>
    unfold maxOver
    rcases List.mem_cons.mp h with h | h
    · subst h; exact foldl_max_init_le f xs (f k)
    · exact foldl_max_le f xs (f x) k h

theorem maxOver_attained (f : String → Int) (l : List String) (h : l ≠ []) :
    ∃ k ∈ l, maxOver f l = f k := by
  cases l with
  | nil => exact absurd rfl h
  | cons x xs =>
    unfold maxOver
    rcases foldl_max_attained f xs (f x) with h1 | ⟨k, hk, hfk⟩
    · exact ⟨x, List.mem_cons_self x xs, h1⟩
    · exact ⟨k, List.mem_cons_of_mem x hk, hfk⟩

/-- Ranking and details assembly of `compute_rrms_initial_recommendations`,
parametrised by the state after the four passes. -/
def computeFrom (final : EngineState) :
    List String × List String × List (String × Detail) :=
  if nonExcludedFrom final = [] then ([], [], detailsFrom final)
  else
    ((rankingLoop final.scores (maxOver final.scores (nonExcludedFrom final))
        ((nonExcludedFrom final).mergeSort (scoreDescLe final))).1,
     (rankingLoop final.scores (maxOver final.scores (nonExcludedFrom final))
        ((nonExcludedFrom final).mergeSort (scoreDescLe final))).2,
     detailsFrom final)

/-- The engine entry point, `compute_rrms_initial_recommendations`. -/
def compute_rrms_initial_recommendations (p : PatientProfile) :
    List String × List String × List (String × Detail) :=
  computeFrom (finalState p)


/-! ## Concrete profiles used in counterexamples and witnesses -/

/-- High-risk patient planning pregnancy within 6 months who also has a
malignancy history; no modifiers. -/
def profileC1 : PatientProfile :=
  { risk_level := "high", efficacy_preference := "balanced",
    of_childbearing_potential := true, pregnancy_horizon := "within_6_months",
    comorbidities := ["malignancy"], adherence_risk := false,
    route_preference := "no_strong_pref", logistic_limits := [],
    vaccine_priority := false, forced_stop_risk := false }

/-- Claim C1 fails on the code: `anti_cd20` is excluded by the pregnancy pass
(pass 2) with score 3.0 and one note, yet the comorbidity pass (pass 3) still
applies the malignancy penalty, leaving it at score 1.0 with two notes.  The
passes do not skip classes excluded by an earlier pass. -/
theorem claim_C1_counterexample :
    ((stateAfterPregnancy profileC1).excluded "anti_cd20").isSome = true ∧
    (stateAfterPregnancy profileC1).scores "anti_cd20" = 30 ∧
    ((stateAfterPregnancy profileC1).notes "anti_cd20").length = 1 ∧
    (finalState profileC1).scores "anti_cd20" = 10 ∧
    ((finalState profileC1).notes "anti_cd20").length = 2 := by decide

/-- Amended C1: once a class is excluded by pass 2 (or is excluded when pass 3
finishes), it is still excluded in the final state — exclusion is never
undone — but later passes may continue to change its score and notes. -/
theorem claim_C1 (p : PatientProfile) (k : String) :
    (((stateAfterPregnancy p).excluded k).isSome = true →
      ((finalState p).excluded k).isSome = true) ∧
    (((stateAfterComorbidities p).excluded k).isSome = true →
      ((finalState p).excluded k).isSome = true) := by
  have h4 : ∀ s : EngineState, (s.excluded k).isSome = true →
      ((score_modifiers p.adherence_risk p.route_preference p.logistic_limits
        p.vaccine_priority p.forced_stop_risk s).excluded k).isSome = true := by
    intro s hs
    exact applyAll_keepsExcluded _
      (modifierStep_keepsExcluded p.adherence_risk p.route_preference p.logistic_limits
        p.vaccine_priority p.forced_stop_risk) DMT_CLASSES s k hs
  constructor
  · intro h
    apply h4
    exact applyAll_keepsExcluded _ (comorbidityStep_keepsExcluded p.comorbidities)
      DMT_CLASSES _ k h
  · intro h
    exact h4 _ h

theorem claim_C1_witness :
    ((stateAfterPregnancy profileC1).excluded "anti_cd20").isSome = true ∧
    ((finalState profileC1).excluded "anti_cd20").isSome = true :=
  ⟨by decide, (claim_C1 profileC1 "anti_cd20").1 (by decide)⟩

/-- Claim C2 fails on the code: the `autoimmune` exclusion rule has no
`continue`, so `alemtuzumab`, although excluded for autoimmune diathesis,
still receives the malignancy penalty (−2.0) and its note within the same
comorbidity pass. -/
theorem claim_C2_counterexample :
    (score_comorbidities ["autoimmune", "malignancy"] initState).excluded "alemtuzumab"
      = some "Pre-existing autoimmune diathesis: avoid alemtuzumab because of high autoimmune complication rates." ∧
    (score_comorbidities ["autoimmune", "malignancy"] initState).scores "alemtuzumab" = -20 ∧
    (score_comorbidities ["autoimmune", "malignancy"] initState).notes "alemtuzumab"
      = ["History of malignancy: consider carefully; balance immunosuppression against cancer risk."] := by
  decide

/-- Amended C2: only the `cardiac` and `hepatic` comorbidity exclusions
short-circuit the remaining comorbidity rules for the class they exclude
(they leave the state otherwise untouched); the `autoimmune` exclusion does
not short-circuit, so an excluded `alemtuzumab` still accumulates the
malignancy penalty and note when a malignancy history is present. -/
theorem claim_C2 (c : List String) (meta : TherapyClass) (s : EngineState) :
    ("cardiac" ∈ c →
      comorbidityStep c ("s1p_modulators", meta) s =
        setExcluded s "s1p_modulators"
          "Cardiac disease or conduction abnormalities: S1P modulators are relatively contraindicated.") ∧
    ("hepatic" ∈ c →
      comorbidityStep c ("teriflunomide", meta) s =
        setExcluded s "teriflunomide"
          "Significant hepatic disease: teriflunomide carries hepatotoxicity risk.") ∧
    ("autoimmune" ∈ c → "malignancy" ∈ c → "infection_risk" ∉ c →
      (comorbidityStep c ("alemtuzumab", meta) s).excluded "alemtuzumab" =
        some "Pre-existing autoimmune diathesis: avoid alemtuzumab because of high autoimmune complication rates." ∧
      (comorbidityStep c ("alemtuzumab", meta) s).scores "alemtuzumab" =
        s.scores "alemtuzumab" - 20 ∧
      (comorbidityStep c ("alemtuzumab", meta) s).notes "alemtuzumab" =
        s.notes "alemtuzumab" ++
          ["History of malignancy: consider carefully; balance immunosuppression against cancer risk."]) := by
  refine ⟨?_, ?_, ?_⟩
  · intro h
    unfold comorbidityStep
    rw [if_pos ⟨h, rfl⟩]
  · intro h
    unfold comorbidityStep
    rw [if_neg (fun hh => absurd hh.2 (show ¬("teriflunomide" = "s1p_modulators") by decide)), if_pos ⟨h, rfl⟩]
  · intro h1 h2 h3
    unfold comorbidityStep
    split_ifs <;> simp_all
    omega

theorem claim_C2_witness :
    ("cardiac" ∈ (["cardiac"] : List String)) ∧
    (comorbidityStep ["cardiac"]
        ("s1p_modulators",
          { name := "S1P receptor modulators (fingolimod, siponimod, ozanimod, ponesimod)",
            efficacy_tier := "moderate_high",
            tags := ["oral", "high_efficacy", "high_freq", "rebound_risk", "blunts_vaccines"],
            pregnancy_strategy := "needs_long_washout" }) initState =
      setExcluded initState "s1p_modulators"
        "Cardiac disease or conduction abnormalities: S1P modulators are relatively contraindicated.") :=
  ⟨by decide,
    (claim_C2 ["cardiac"]
      { name := "S1P receptor modulators (fingolimod, siponimod, ozanimod, ponesimod)",
        efficacy_tier := "moderate_high",
        tags := ["oral", "high_efficacy", "high_freq", "rebound_risk", "blunts_vaccines"],
        pregnancy_strategy := "needs_long_washout" } initState).1 (by decide)⟩


/-- Catalog lookup by class id (used to state witnesses compactly). -/
def metaOf (k : String) : TherapyClass :=
  ((DMT_CLASSES.find? (fun e => e.1 == k)).getD
    ("", { name := "", efficacy_tier := "", tags := [], pregnancy_strategy := "" })).2

/-- Claim C4: with childbearing potential and a pregnancy horizon within six
months, the pregnancy pass adds +4.0 and a note to every class whose strategy
is `compatible` (and leaves its exclusion entry alone), and hard-excludes
every other class with the washout/insufficient-data reason.  The incoming
state is arbitrary, so this covers the pass-2 state of every profile. -/
theorem claim_C4 (s : EngineState) (k : String) (meta : TherapyClass)
    (hmem : (k, meta) ∈ DMT_CLASSES) :
    (meta.pregnancy_strategy = "compatible" →
      (score_pregnancy "within_6_months" true s).scores k = s.scores k + 40 ∧
      (score_pregnancy "within_6_months" true s).notes k =
        s.notes k ++ ["Pregnancy planned in ≤6 months: this class is relatively compatible with conception/pregnancy."] ∧
      (score_pregnancy "within_6_months" true s).excluded k = s.excluded k) ∧
    (meta.pregnancy_strategy ≠ "compatible" →
      (score_pregnancy "within_6_months" true s).excluded k =
        some "Pregnancy planned in ≤6 months: not advisable because safe washout is not feasible or data are insufficient.") := by
  obtain ⟨h1, h2, h3⟩ := score_pregnancy_read "within_6_months" s k meta hmem (by decide)
  constructor
  · intro hc
    rw [h1, h2, h3]
    unfold pregnancyStep
    rw [if_pos rfl, if_pos hc]
    simp
  · intro hc
    rw [h3]
    unfold pregnancyStep
    rw [if_pos rfl, if_neg hc]
    simp

theorem claim_C4_witness :
    ((("platform_injectables", metaOf "platform_injectables") ∈ DMT_CLASSES) ∧
      (metaOf "platform_injectables").pregnancy_strategy = "compatible" ∧
      (score_pregnancy "within_6_months" true initState).scores "platform_injectables" =
        initState.scores "platform_injectables" + 40) ∧
    ((("teriflunomide", metaOf "teriflunomide") ∈ DMT_CLASSES) ∧
      (metaOf "teriflunomide").pregnancy_strategy ≠ "compatible" ∧
      (score_pregnancy "within_6_months" true initState).excluded "teriflunomide" =
        some "Pregnancy planned in ≤6 months: not advisable because safe washout is not feasible or data are insufficient.") :=
  ⟨⟨by decide, by decide,
    ((claim_C4 initState "platform_injectables" (metaOf "platform_injectables") (by decide)).1
      (by decide)).1⟩,
   ⟨by decide, by decide,
    (claim_C4 initState "teriflunomide" (metaOf "teriflunomide") (by decide)).2 (by decide)⟩⟩

/-- Claim C5: with an oral-only route preference the modifier pass adds +2.0
to every oral class and leaves its exclusion entry untouched (relative to the
no-preference run of the same pass, the score is exactly 2.0 higher), while
every non-oral class is excluded with the not-oral reason and its score and
notes stay at whatever the adherence sub-block (which runs before the route
rule) produced — no later modifier rule fires for it. -/
theorem claim_C5 (a : Bool) (ll : List String) (vp fs : Bool) (s : EngineState)
    (k : String) (meta : TherapyClass) (hmem : (k, meta) ∈ DMT_CLASSES) :
    ("oral" ∈ meta.tags →
      (score_modifiers a "oral_only" ll vp fs s).excluded k = s.excluded k ∧
      (score_modifiers a "oral_only" ll vp fs s).scores k =
        (score_modifiers a "no_strong_pref" ll vp fs s).scores k + 20) ∧
    ("oral" ∉ meta.tags →
      (score_modifiers a "oral_only" ll vp fs s).excluded k =
        some "Patient prefers oral-only therapy; this class is not oral." ∧
      (score_modifiers a "oral_only" ll vp fs s).scores k =
        (adherenceAdjust a (k, meta) s).scores k ∧
      (score_modifiers a "oral_only" ll vp fs s).notes k =
        (adherenceAdjust a (k, meta) s).notes k) := by
  obtain ⟨ho1, ho2, ho3⟩ := score_modifiers_read a "oral_only" ll vp fs s k meta hmem
  constructor
  · intro horal
    have hstep : modifierStep a "oral_only" ll vp fs (k, meta) s =
        exitAdjust fs (k, meta) (vaccineAdjust vp (k, meta) (logisticsAdjust ll (k, meta)
          (routeAdjust "oral_only" (k, meta) (adherenceAdjust a (k, meta) s)))) := by
      unfold modifierStep
      rw [if_neg (fun hh => hh.2 horal)]
    constructor
    · rw [ho3, hstep]
      rw [exitAdjust_excluded, vaccineAdjust_excluded, logisticsAdjust_excluded,
        routeAdjust_excluded, adherenceAdjust_excluded]
    · obtain ⟨hn1, hn2, hn3⟩ := score_modifiers_read a "no_strong_pref" ll vp fs s k meta hmem
      have hstepn : modifierStep a "no_strong_pref" ll vp fs (k, meta) s =
          exitAdjust fs (k, meta) (vaccineAdjust vp (k, meta) (logisticsAdjust ll (k, meta)
            (adherenceAdjust a (k, meta) s))) := by
        unfold modifierStep
        rw [if_neg (fun hh => absurd hh.1 (by decide)),
          routeAdjust_no_strong_pref (k, meta) (adherenceAdjust a (k, meta) s)]
      rw [ho1, hn1, hstep, hstepn]
      have hd := exitAdjust_scores_sub fs (k, meta)
        (vaccineAdjust vp (k, meta) (logisticsAdjust ll (k, meta)
          (routeAdjust "oral_only" (k, meta) (adherenceAdjust a (k, meta) s))))
        (vaccineAdjust vp (k, meta) (logisticsAdjust ll (k, meta)
          (adherenceAdjust a (k, meta) s)))
      rw [vaccineAdjust_scores_sub, logisticsAdjust_scores_sub] at hd
      dsimp only at hd
      have hroute : (routeAdjust "oral_only" (k, meta) (adherenceAdjust a (k, meta) s)).scores k =
          (adherenceAdjust a (k, meta) s).scores k + 20 := by
        unfold routeAdjust
        rw [if_pos rfl]
        simp
      rw [hroute] at hd
      omega
  · intro horal
    have hstep : modifierStep a "oral_only" ll vp fs (k, meta) s =
        setExcluded (adherenceAdjust a (k, meta) s) k
          "Patient prefers oral-only therapy; this class is not oral." := by
      unfold modifierStep
      rw [if_pos ⟨rfl, horal⟩]
    rw [ho1, ho2, ho3, hstep]
    simp

theorem claim_C5_witness :
    ((("cladribine", metaOf "cladribine") ∈ DMT_CLASSES) ∧
      "oral" ∈ (metaOf "cladribine").tags ∧
      (score_modifiers false "oral_only" [] false false initState).scores "cladribine" =
        (score_modifiers false "no_strong_pref" [] false false initState).scores "cladribine" + 20) ∧
    ((("natalizumab", metaOf "natalizumab") ∈ DMT_CLASSES) ∧
      "oral" ∉ (metaOf "natalizumab").tags ∧
      (score_modifiers false "oral_only" [] false false initState).excluded "natalizumab" =
        some "Patient prefers oral-only therapy; this class is not oral.") :=
  ⟨⟨by decide, by decide,
    ((claim_C5 false [] false false initState "cladribine" (metaOf "cladribine") (by decide)).1
      (by decide)).2⟩,
   ⟨by decide, by decide,
    ((claim_C5 false [] false false initState "natalizumab" (metaOf "natalizumab") (by decide)).2
      (by decide)).1⟩⟩


/-- Scenario A: high-risk disease, no pregnancy concern, no comorbidities,
and no modifiers triggered. -/
def profileA : PatientProfile :=
  { risk_level := "high", efficacy_preference := "balanced",
    of_childbearing_potential := false, pregnancy_horizon := "none",
    comorbidities := [], adherence_risk := false,
    route_preference := "no_strong_pref", logistic_limits := [],
    vaccine_priority := false, forced_stop_risk := false }

/-- Claim C6 fails on the code: in Scenario A the five high/moderate_high-tier
classes end at 3.0 and the platform/moderate-tier classes at 1.0, a gap of
exactly 2.0, not "at least 3.0". -/
theorem claim_C6_counterexample :
    (finalState profileA).scores "anti_cd20" = 30 ∧
    (finalState profileA).scores "fumarates" = 10 ∧
    ¬((finalState profileA).scores "anti_cd20" ≥ (finalState profileA).scores "fumarates" + 30) := by
  decide

/-- Amended C6: in Scenario A each of `anti_cd20`, `natalizumab`,
`alemtuzumab`, `cladribine`, `s1p_modulators` scores 3.0, each
platform/moderate class scores 1.0 — a gap of exactly 2.0 — and the five
high/moderate_high-tier classes are exactly the `stronglyRecommended` list,
in catalog order.  (Scores are in tenths.) -/
theorem claim_C6 :
    ((finalState profileA).scores "anti_cd20" = 30 ∧
     (finalState profileA).scores "natalizumab" = 30 ∧
     (finalState profileA).scores "alemtuzumab" = 30 ∧
     (finalState profileA).scores "cladribine" = 30 ∧
     (finalState profileA).scores "s1p_modulators" = 30) ∧
    ((finalState profileA).scores "fumarates" = 10 ∧
     (finalState profileA).scores "teriflunomide" = 10 ∧
     (finalState profileA).scores "platform_injectables" = 10) ∧
    (compute_rrms_initial_recommendations profileA).1 =
      ["anti_cd20", "natalizumab", "alemtuzumab", "cladribine", "s1p_modulators"] ∧
    (compute_rrms_initial_recommendations profileA).2.1 =
      ["fumarates", "teriflunomide", "platform_injectables"] := by
  have hsorted : (nonExcludedFrom (finalState profileA)).mergeSort (scoreDescLe (finalState profileA)) =
      nonExcludedFrom (finalState profileA) := List.mergeSort_of_sorted (by decide)
  refine ⟨by decide, by decide, ?_, ?_⟩ <;>
    · unfold compute_rrms_initial_recommendations computeFrom
      rw [if_neg (by decide), hsorted]
      decide

/-- Profile with an out-of-vocabulary efficacy preference. -/
def profileC7unknownPref : PatientProfile :=
  { risk_level := "low_mod", efficacy_preference := "not_a_known_preference",
    of_childbearing_potential := false, pregnancy_horizon := "none",
    comorbidities := [], adherence_risk := false,
    route_preference := "no_strong_pref", logistic_limits := [],
    vaccine_priority := false, forced_stop_risk := false }

/-- Baseline profile for the unknown-comorbidity comparison. -/
def profileC7base : PatientProfile :=
  { risk_level := "low_mod", efficacy_preference := "balanced",
    of_childbearing_potential := false, pregnancy_horizon := "none",
    comorbidities := [], adherence_risk := false,
    route_preference := "no_strong_pref", logistic_limits := [],
    vaccine_priority := false, forced_stop_risk := false }

/-- Claim C7 fails on the code: there is no fail-fast path.  An unrecognised
`efficacy_preference` falls into the final `else` and is scored exactly like
`safety`, and an unrecognised comorbidity code is silently ignored — the
engine returns the same result as for the profile without it. -/
theorem claim_C7_counterexample :
    compute_rrms_initial_recommendations profileC7unknownPref =
      compute_rrms_initial_recommendations { profileC7unknownPref with efficacy_preference := "safety" } ∧
    compute_rrms_initial_recommendations { profileC7base with comorbidities := ["not_a_known_comorbidity"] } =
      compute_rrms_initial_recommendations profileC7base :=
  ⟨rfl, rfl⟩

/-- The comorbidity codes the engine ever tests for. -/
def knownComorbidityCodes : List String :=
  ["cardiac", "hepatic", "renal", "autoimmune", "malignancy", "infection_risk",
   "psychiatric", "gi_dominant"]

/-- Amended C7: the engine is total and never raises.  A `risk_level` other
than `high` together with an `efficacy_preference` other than `max` or
`balanced` is scored exactly as `safety`, and a comorbidity code outside the
fixed vocabulary has no effect at all on the result. -/
theorem claim_C7 :
    (∀ p : PatientProfile, p.risk_level ≠ "high" →
      p.efficacy_preference ≠ "max" → p.efficacy_preference ≠ "balanced" →
      compute_rrms_initial_recommendations p =
        compute_rrms_initial_recommendations { p with efficacy_preference := "safety" }) ∧
    (∀ (p : PatientProfile) (c : String), c ∉ knownComorbidityCodes →
      compute_rrms_initial_recommendations { p with comorbidities := c :: p.comorbidities } =
        compute_rrms_initial_recommendations p) := by
  constructor
  · intro p h1 h2 h3
    have hstep : ∀ (e : String × TherapyClass) (s : EngineState),
        activityStep p.risk_level p.efficacy_preference e s =
          activityStep p.risk_level "safety" e s := by
      intro e s
      simp [activityStep, h1, h2, h3]
    have hfinal : finalState p = finalState { p with efficacy_preference := "safety" } := by
      unfold finalState stateAfterComorbidities stateAfterPregnancy stateAfterActivity
        score_activity_and_efficacy
      dsimp only
      rw [applyAll_congr _ _ hstep DMT_CLASSES initState]
    unfold compute_rrms_initial_recommendations
    rw [hfinal]
  · intro p c hc
    have hmem : ∀ x : String, x ∈ knownComorbidityCodes →
        ((x ∈ c :: p.comorbidities) ↔ (x ∈ p.comorbidities)) := by
      intro x hx
      simp only [List.mem_cons]
      constructor
      · rintro (h | h)
        · exact absurd (h ▸ hx) hc
        · exact h
      · exact Or.inr
    have hstep : ∀ (e : String × TherapyClass) (s : EngineState),
        comorbidityStep (c :: p.comorbidities) e s = comorbidityStep p.comorbidities e s := by
      intro e s
      simp only [comorbidityStep, hmem "cardiac" (by decide), hmem "hepatic" (by decide),
        hmem "renal" (by decide), hmem "autoimmune" (by decide), hmem "malignancy" (by decide),
        hmem "infection_risk" (by decide), hmem "gi_dominant" (by decide),
        hmem "psychiatric" (by decide)]
    have hfinal : finalState { p with comorbidities := c :: p.comorbidities } = finalState p := by
      unfold finalState stateAfterComorbidities stateAfterPregnancy stateAfterActivity
        score_comorbidities
      dsimp only
      rw [applyAll_congr _ _ hstep DMT_CLASSES _]
    unfold compute_rrms_initial_recommendations
    rw [hfinal]

theorem claim_C7_witness :
    (profileC7unknownPref.risk_level ≠ "high" ∧
      profileC7unknownPref.efficacy_preference ≠ "max" ∧
      profileC7unknownPref.efficacy_preference ≠ "balanced" ∧
      compute_rrms_initial_recommendations profileC7unknownPref =
        compute_rrms_initial_recommendations
          { profileC7unknownPref with efficacy_preference := "safety" }) ∧
    ("stress_headaches_not_a_code" ∉ knownComorbidityCodes ∧
      compute_rrms_initial_recommendations
          { profileC7base with comorbidities := "stress_headaches_not_a_code" :: profileC7base.comorbidities } =
        compute_rrms_initial_recommendations profileC7base) :=
  ⟨⟨by decide, by decide, by decide,
    claim_C7.1 profileC7unknownPref (by decide) (by decide) (by decide)⟩,
   ⟨by decide, claim_C7.2 profileC7base "stress_headaches_not_a_code" (by decide)⟩⟩

/-- Claim C8: the engine is deterministic — it is a pure function of the
profile (the catalog is a fixed constant), so identical inputs give identical
final accumulators and identical outputs. -/
theorem claim_C8 (p q : PatientProfile) (h : p = q) :
    finalState p = finalState q ∧
    compute_rrms_initial_recommendations p = compute_rrms_initial_recommendations q := by
  subst h
  exact ⟨rfl, rfl⟩

theorem claim_C8_witness :
    finalState profileA = finalState profileA ∧
    compute_rrms_initial_recommendations profileA = compute_rrms_initial_recommendations profileA :=
  claim_C8 profileA profileA rfl


/-- Claim C10: for every profile the returned `details` mapping has exactly
one entry per catalog class id, in catalog order (so all 8 classes, excluded
ones included), and each entry carries the class name, the final score
rendered to one decimal place, the notes joined in accumulation order, and
the exclusion reason (empty string when not excluded). -/
theorem claim_C10 (p : PatientProfile) :
    (compute_rrms_initial_recommendations p).2.2 = detailsFrom (finalState p) ∧
    (detailsFrom (finalState p)).map Prod.fst =
      ["anti_cd20", "natalizumab", "alemtuzumab", "cladribine", "s1p_modulators",
       "fumarates", "teriflunomide", "platform_injectables"] ∧
    (∀ (k : String) (meta : TherapyClass), (k, meta) ∈ DMT_CLASSES →
      (k, { name := meta.name,
            score := formatOneDecimal ((finalState p).scores k),
            notes := joinNotes ((finalState p).notes k),
            excluded_reason := ((finalState p).excluded k).getD "" }) ∈
        detailsFrom (finalState p)) := by
  refine ⟨?_, rfl, ?_⟩
  · unfold compute_rrms_initial_recommendations computeFrom
    split_ifs <;> rfl
  · intro k meta hmem
    exact List.mem_map.mpr ⟨(k, meta), hmem, rfl⟩

theorem claim_C10_witness :
    (("anti_cd20", metaOf "anti_cd20") ∈ DMT_CLASSES) ∧
    (("anti_cd20",
      ({ name := (metaOf "anti_cd20").name,
         score := formatOneDecimal ((finalState profileA).scores "anti_cd20"),
         notes := joinNotes ((finalState profileA).notes "anti_cd20"),
         excluded_reason := ((finalState profileA).excluded "anti_cd20").getD "" } : Detail)) ∈
      detailsFrom (finalState profileA)) :=
  ⟨by decide, (claim_C10 profileA).2.2 "anti_cd20" (metaOf "anti_cd20") (by decide)⟩


/-! ## Ranking characterization (shared by the ranking claims) -/

theorem strong_eq_filter (p : PatientProfile) (h : nonExcludedFrom (finalState p) ≠ []) :
    (compute_rrms_initial_recommendations p).1 =
      ((nonExcludedFrom (finalState p)).mergeSort (scoreDescLe (finalState p))).filter
        (fun k => decide ((finalState p).scores k ≥
          maxOver (finalState p).scores (nonExcludedFrom (finalState p)) - 10)) := by
  unfold compute_rrms_initial_recommendations computeFrom
  rw [if_neg h, rankingLoop_eq]

theorem alts_eq_filter (p : PatientProfile) (h : nonExcludedFrom (finalState p) ≠ []) :
    (compute_rrms_initial_recommendations p).2.1 =
      ((nonExcludedFrom (finalState p)).mergeSort (scoreDescLe (finalState p))).filter
        (fun k => decide (¬((finalState p).scores k ≥
            maxOver (finalState p).scores (nonExcludedFrom (finalState p)) - 10) ∧
          (finalState p).scores k > 0)) := by
  unfold compute_rrms_initial_recommendations computeFrom
  rw [if_neg h, rankingLoop_eq]

theorem mem_strong_iff (p : PatientProfile) (h : nonExcludedFrom (finalState p) ≠ [])
    (k : String) :
    k ∈ (compute_rrms_initial_recommendations p).1 ↔
      (k ∈ nonExcludedFrom (finalState p) ∧
       (finalState p).scores k ≥
         maxOver (finalState p).scores (nonExcludedFrom (finalState p)) - 10) := by
  rw [strong_eq_filter p h]
  simp [List.mem_filter]

theorem mem_alts_iff (p : PatientProfile) (h : nonExcludedFrom (finalState p) ≠ [])
    (k : String) :
    k ∈ (compute_rrms_initial_recommendations p).2.1 ↔
      (k ∈ nonExcludedFrom (finalState p) ∧
       (finalState p).scores k <
         maxOver (finalState p).scores (nonExcludedFrom (finalState p)) - 10 ∧
       (finalState p).scores k > 0) := by
  rw [alts_eq_filter p h]
  simp only [List.mem_filter, List.mem_mergeSort, decide_eq_true_eq, not_le, gt_iff_lt]

theorem sorted_pairwise_scores (p : PatientProfile) :
    (((nonExcludedFrom (finalState p)).mergeSort (scoreDescLe (finalState p))).Pairwise
      (fun a b => (finalState p).scores b ≤ (finalState p).scores a)) := by
  have hs := List.sorted_mergeSort (scoreDescLe_trans (finalState p))
    (scoreDescLe_total (finalState p)) (nonExcludedFrom (finalState p))
  exact hs.imp (fun hab => by simpa [scoreDescLe] using hab)

theorem pair_sublist_sorted (p : PatientProfile) (a b : String)
    (hab : List.Sublist [a, b] (nonExcludedFrom (finalState p)))
    (hsc : (finalState p).scores a = (finalState p).scores b) :
    List.Sublist [a, b] ((nonExcludedFrom (finalState p)).mergeSort (scoreDescLe (finalState p))) := by
  apply List.sublist_mergeSort (scoreDescLe_trans (finalState p))
    (scoreDescLe_total (finalState p))
  · have hle : scoreDescLe (finalState p) a b = true := by
      simp [scoreDescLe, hsc]
    simp [List.pairwise_cons, hle]
  · exact hab


/-- Profile on which every surviving class ends at score 0.0: safety-first
low/moderate risk, oral-only preference, comorbidities hepatic (excludes
teriflunomide), renal, infection risk and GI-dominant symptoms. -/
def profileC3cx : PatientProfile :=
  { risk_level := "low_mod", efficacy_preference := "safety",
    of_childbearing_potential := false, pregnancy_horizon := "none",
    comorbidities := ["hepatic", "renal", "infection_risk", "gi_dominant"],
    adherence_risk := false, route_preference := "oral_only", logistic_limits := [],
    vaccine_priority := false, forced_stop_risk := false }

/-- Claim C3 fails on the code in one clause: a non-excluded class with score
≤ 0 is NOT always omitted from both lists.  When every surviving class scores
≤ 0, the top classes still satisfy `score ≥ maxScore − 1.0` and are placed in
`stronglyRecommended`: here `cladribine` survives with score 0.0 and is
strongly recommended. -/
theorem claim_C3_counterexample :
    (finalState profileC3cx).scores "cladribine" = 0 ∧
    ((finalState profileC3cx).excluded "cladribine").isNone = true ∧
    "cladribine" ∈ (compute_rrms_initial_recommendations profileC3cx).1 := by
  refine ⟨by decide, by decide, ?_⟩
  have hsorted : (nonExcludedFrom (finalState profileC3cx)).mergeSort
      (scoreDescLe (finalState profileC3cx)) = nonExcludedFrom (finalState profileC3cx) :=
    List.mergeSort_of_sorted (by decide)
  unfold compute_rrms_initial_recommendations computeFrom
  rw [if_neg (by decide), hsorted]
  decide

/-- Ranking specification of amended claim C3, for a profile with at least
one non-excluded class.  Writing `m` for the maximum score over non-excluded
classes and in tenths of a point:
* membership in `stronglyRecommended` is exactly non-excluded ∧ score ≥ m − 1.0;
* membership in `reasonableAlternatives` is exactly non-excluded ∧
  score < m − 1.0 ∧ score > 0;
* a class that fails the strong threshold and has score ≤ 0 is in neither
  list (the amendment: the original "score ≤ 0 ⇒ in neither list" clause is
  false when m ≤ 0, see the counterexample);
* excluded classes are in neither list;
* both lists are sorted by score descending;
* ties keep catalog order: two equal-scoring classes appearing in catalog
  order `a` then `b` among the non-excluded keys appear in that same order
  inside the list that contains them. -/
def RankingSpec (p : PatientProfile) : Prop :=
  (∀ k : String, k ∈ (compute_rrms_initial_recommendations p).1 ↔
    (k ∈ nonExcludedFrom (finalState p) ∧
     (finalState p).scores k ≥
       maxOver (finalState p).scores (nonExcludedFrom (finalState p)) - 10)) ∧
  (∀ k : String, k ∈ (compute_rrms_initial_recommendations p).2.1 ↔
    (k ∈ nonExcludedFrom (finalState p) ∧
     (finalState p).scores k <
       maxOver (finalState p).scores (nonExcludedFrom (finalState p)) - 10 ∧
     (finalState p).scores k > 0)) ∧
  (∀ k : String, k ∈ nonExcludedFrom (finalState p) →
    (finalState p).scores k ≤ 0 →
    (finalState p).scores k <
      maxOver (finalState p).scores (nonExcludedFrom (finalState p)) - 10 →
    k ∉ (compute_rrms_initial_recommendations p).1 ∧
    k ∉ (compute_rrms_initial_recommendations p).2.1) ∧
  (∀ k : String, ((finalState p).excluded k).isSome = true →
    k ∉ (compute_rrms_initial_recommendations p).1 ∧
    k ∉ (compute_rrms_initial_recommendations p).2.1) ∧
  (compute_rrms_initial_recommendations p).1.Pairwise
    (fun a b => (finalState p).scores b ≤ (finalState p).scores a) ∧
  (compute_rrms_initial_recommendations p).2.1.Pairwise
    (fun a b => (finalState p).scores b ≤ (finalState p).scores a) ∧
  (∀ a b : String, List.Sublist [a, b] (nonExcludedFrom (finalState p)) →
    (finalState p).scores a = (finalState p).scores b →
    (a ∈ (compute_rrms_initial_recommendations p).1 →
      List.Sublist [a, b] (compute_rrms_initial_recommendations p).1) ∧
    (a ∈ (compute_rrms_initial_recommendations p).2.1 →
      List.Sublist [a, b] (compute_rrms_initial_recommendations p).2.1))

/-- Amended C3: the full ranking specification (thresholds, exclusions,
descending order, stable ties), with the "score ≤ 0 ⇒ omitted" clause
restricted to classes below the strong threshold. -/
theorem claim_C3 (p : PatientProfile) (h : nonExcludedFrom (finalState p) ≠ []) :
    RankingSpec p := by
  refine ⟨mem_strong_iff p h, mem_alts_iff p h, ?_, ?_, ?_, ?_, ?_⟩
  · intro k hk h0 hlt
    constructor
    · intro hs
      have := ((mem_strong_iff p h k).mp hs).2
      omega
    · intro ha
      have := ((mem_alts_iff p h k).mp ha).2.2
      omega
  · intro k hk
    have hne : k ∉ nonExcludedFrom (finalState p) := by
      intro hmem
      have h2 := (List.mem_filter.mp hmem).2
      rw [Option.isNone_iff_eq_none] at h2
      rw [h2] at hk
      simp at hk
    exact ⟨fun hs => absurd ((mem_strong_iff p h k).mp hs).1 hne,
           fun ha => absurd ((mem_alts_iff p h k).mp ha).1 hne⟩
  · rw [strong_eq_filter p h]
    exact List.Pairwise.sublist (List.filter_sublist _) (sorted_pairwise_scores p)
  · rw [alts_eq_filter p h]
    exact List.Pairwise.sublist (List.filter_sublist _) (sorted_pairwise_scores p)
  · intro a b hab hsc
    have hpair := pair_sublist_sorted p a b hab hsc
    constructor
    · intro ha
      have hfa : decide ((finalState p).scores a ≥
          maxOver (finalState p).scores (nonExcludedFrom (finalState p)) - 10) = true := by
        simp only [decide_eq_true_eq]
        exact ((mem_strong_iff p h a).mp ha).2
      have hfb : decide ((finalState p).scores b ≥
          maxOver (finalState p).scores (nonExcludedFrom (finalState p)) - 10) = true := by
        simp only [decide_eq_true_eq]
        rw [← hsc]
        exact ((mem_strong_iff p h a).mp ha).2
      rw [strong_eq_filter p h]
      have hfilter := hpair.filter
        (fun k => decide ((finalState p).scores k ≥
          maxOver (finalState p).scores (nonExcludedFrom (finalState p)) - 10))
      rw [List.filter_cons, List.filter_cons] at hfilter
      simp only [hfa, hfb, if_pos] at hfilter
      simpa using hfilter
    · intro ha
      have hma := (mem_alts_iff p h a).mp ha
      have hfa : decide (¬((finalState p).scores a ≥
          maxOver (finalState p).scores (nonExcludedFrom (finalState p)) - 10) ∧
          (finalState p).scores a > 0) = true := by
        simp only [decide_eq_true_eq, not_le]
        exact ⟨by omega, hma.2.2⟩
      have hfb : decide (¬((finalState p).scores b ≥
          maxOver (finalState p).scores (nonExcludedFrom (finalState p)) - 10) ∧
          (finalState p).scores b > 0) = true := by
        simp only [decide_eq_true_eq, not_le]
        rw [← hsc]
        exact ⟨by omega, hma.2.2⟩
      rw [alts_eq_filter p h]
      have hfilter := hpair.filter
        (fun k => decide (¬((finalState p).scores k ≥
          maxOver (finalState p).scores (nonExcludedFrom (finalState p)) - 10) ∧
          (finalState p).scores k > 0))
      rw [List.filter_cons, List.filter_cons] at hfilter
      simp only [hfa, hfb, if_pos] at hfilter
      simpa using hfilter

theorem claim_C3_witness :
    nonExcludedFrom (finalState profileA) ≠ [] ∧ RankingSpec profileA :=
  ⟨by decide, claim_C3 profileA (by decide)⟩

/-- Claim C9: whenever at least one class survives, `stronglyRecommended` is
non-empty — the maximum is attained by some non-excluded class, which always
passes the `score ≥ maxScore − 1.0` test. -/
theorem claim_C9 (p : PatientProfile) (h : nonExcludedFrom (finalState p) ≠ []) :
    (compute_rrms_initial_recommendations p).1 ≠ [] := by
  obtain ⟨k, hk, hmax⟩ := maxOver_attained (finalState p).scores _ h
  have hmem : k ∈ (compute_rrms_initial_recommendations p).1 :=
    (mem_strong_iff p h k).mpr ⟨hk, by omega⟩
  exact List.ne_nil_of_mem hmem

theorem claim_C9_witness :
    nonExcludedFrom (finalState profileC3cx) ≠ [] ∧
    (compute_rrms_initial_recommendations profileC3cx).1 ≠ [] :=
  ⟨by decide, claim_C9 profileC3cx (by decide)⟩

end DMT
